import Mathlib

/-! Verification of bevy-potree against its specification.

Shallow embedding of the two source files:
  * `examples/multiple.rs` — the loader (`load`) that selects a load path
    from a `LoadConfig`;
  * `src/render_graph.rs` — `PointCloudNode::run`, modelled as a pure
    function from render-world state to the list of GPU commands recorded
    into the command encoder, together with the lines printed to stdout.

Machine integers (`u32`) are modelled as `Nat`; all arithmetic in the
embedded code (`viewport.z / 8`) stays within `u32` range in practice and
involves no overflow, so plain `Nat` division coincides with the source.
-/

namespace BevyPotree

/-! Loader model (examples/multiple.rs). -/

/-- Structure `LoadConfig` from examples/multiple.rs (lines 44–59): the five fields
describing one loading strategy instance. `delay` is a `u32` frame number,
modelled as `Nat`. -/
structure LoadConfig where
  direct : Bool
  auto : Bool
  early : Bool
  delay : Nat
  name : String
deriving DecidableEq

/-- Modelled from the spec: the decoded point-cloud asset produced by the
binary decoder (`OpdLoader::load_opd`, whose code is not under src/). Its
contents are opaque to every claim here; we keep the raw decoded payload. -/
structure PointCloudAsset where
  payload : List Nat
deriving DecidableEq

/-- An asset handle. `Handle.default` is the null/default handle
(`Handle::default()` in the example, spec §3: "unresolved — spawn nothing").
The other constructors record which insertion produced the handle:
`byPath` ← `asset_server.load(path)`, `tracked` ← `asset_server.add`,
`direct` ← `assets.add`. The `idx` is the index of the new entry in the
corresponding store. -/
inductive Handle where
  | default
  | byPath (path : String) (idx : Nat)
  | tracked (idx : Nat)
  | direct (idx : Nat)
deriving DecidableEq

/-- The environment the loader's synchronous path uses. `read_file` models
the `File::open` + `read_to_end` pair (multiple.rs lines 123–132) and
`load_opd` models `OpdLoader::load_opd` (line 134, code not under src/);
the example unwraps both, so the claims are settled in environments where
they succeed, modelled as total functions. -/
structure LoaderEnv where
  read_file : String → List Nat
  load_opd : List Nat → PointCloudAsset

/-- The three destination stores a `load` call can touch:
`server_path_loads` records `asset_server.load(path)` registrations,
`server_added` records `asset_server.add(asset)` (tracked insertion),
`assets_added` records `assets.add(asset)` (direct insertion into
`Assets<PointCloudAsset>`). -/
structure Stores where
  server_path_loads : List String
  server_added : List PointCloudAsset
  assets_added : List PointCloudAsset
deriving DecidableEq

/-- Function `load` from examples/multiple.rs lines 114–142, as a pure function.
`Except.error ()` models the `assert!(!config.direct)` panic on line 120;
every other path returns the produced handle plus the updated stores.
The branch structure mirrors the source exactly:
`if auto { assert !direct; asset_server.load(name) }
 else { read; decode; if direct { assets.add } else { asset_server.add } }`. -/
def load (env : LoaderEnv) (s : Stores) (c : LoadConfig) :
    Except Unit (Handle × Stores) :=
  if c.auto then
    if c.direct then
      Except.error ()
    else
      Except.ok (Handle.byPath c.name s.server_path_loads.length,
        { s with server_path_loads := s.server_path_loads ++ [c.name] })
  else
    let bytes := env.read_file c.name
    let point_cloud := env.load_opd bytes
    if c.direct then
      Except.ok (Handle.direct s.assets_added.length,
        { s with assets_added := s.assets_added ++ [point_cloud] })
    else
      Except.ok (Handle.tracked s.server_added.length,
        { s with server_added := s.server_added ++ [point_cloud] })

/-- A trivial concrete environment and store, for witnesses. -/
def env0 : LoaderEnv :=
  { read_file := fun _ => [], load_opd := fun bs => ⟨bs⟩ }

def stores0 : Stores :=
  { server_path_loads := [], server_added := [], assets_added := [] }

/-! Render-graph node model (src/render_graph.rs). -/

/-- Type `UVec4` as used for `ExtractedView::viewport`: `x`,`y` are the viewport
origin, `z`,`w` its pixel width and height (all `u32`, modelled as `Nat`). -/
structure UVec4 where
  x : Nat
  y : Nat
  z : Nat
  w : Nat
deriving DecidableEq

/-- The per-view data `PointCloudNode::run` reads from its view query
(render_graph.rs lines 57–63): the extracted view's viewport, the view
uniform offset, and the `EyeDomeViewTarget`'s bind group (its depth texture
view is identified by `eye_dome_depth_view`). GPU objects are identified by
`Nat` ids. -/
structure ViewBundle where
  viewport : UVec4
  view_uniform_offset : Nat
  eye_dome_depth_view : Nat
  eye_dome_bind_group : Nat
deriving DecidableEq

/-- The prepared render asset for a `PointCloudAsset`, as used by
render_graph.rs lines 119–121: a per-asset bind group and the point count
(`num_points : u32`). -/
structure GpuPointCloud where
  bind_group : Nat
  num_points : Nat
deriving DecidableEq

/-- Component `PotreePointCloud` as constructed in examples/multiple.rs lines 180–183:
a handle to the point-cloud asset plus a point size. `point_size` is an
`f32` the render node never reads; we carry it as a rational. -/
structure PotreePointCloud where
  mesh : Handle
  point_size : ℚ

/-- A `wgpu` load operation, as in the `LoadOp` used on render_graph.rs
lines 72–83. The only clear value the node uses is `0.0_f32`, which is
exactly the integer 0. -/
inductive LoadOp where
  | load
  | clear (value : Int)
deriving DecidableEq

/-- One GPU command recorded into the frame's command encoder by
`PointCloudNode::run`. `beginRenderPass` records the color attachment's
load op and the depth attachment's load op; `draw a b c d` is
`draw(a..b, c..d)`; `dispatch` is `dispatch_workgroups`. -/
inductive GpuCmd where
  | beginRenderPass (colorLoad : LoadOp) (depthLoad : LoadOp)
  | setRenderPipeline (id : Nat)
  | setBindGroup (index : Nat) (group : Nat) (offsets : List Nat)
  | setVertexBuffer (slot : Nat)
  | draw (vertexStart vertexEnd instanceStart instanceEnd : Nat)
  | endRenderPass
  | beginComputePass
  | setComputePipeline (id : Nat)
  | dispatch (x y z : Nat)
deriving DecidableEq

/-- Type `NodeRunError`: the only fallible call in `run` is
`graph.get_input_entity(Self::IN_VIEW)?` (line 56), which errors when the
graph did not wire the input slot. -/
inductive NodeRunError where
  | inputSlotError
deriving DecidableEq

/-- The render-world state `PointCloudNode::run` observes for one frame:
the input-slot entity, the view query (`self.query.get_manual`), the two
pipeline-cache lookups, the `PointCloudBindGroup` resource, the entity
query (`self.entity_query`), and the `RenderAssets<PointCloudAsset>`
lookup table. -/
structure RenderWorld where
  slot_view : Option Nat
  views : Nat → Option ViewBundle
  pipeline : Option Nat
  eye_dome_pipeline : Option Nat
  pc_bind_group : Option Nat
  entities : List PotreePointCloud
  render_assets : Handle → Option GpuPointCloud

/-- The loop body of render_graph.rs lines 113–122 for one entity: if the
handle's render asset is absent, `continue` (no commands); else bind the
per-asset bind group at index 1 and `draw(0..4, 0..num_points)`. -/
def drawEntity (ra : Handle → Option GpuPointCloud) (e : PotreePointCloud) :
    List GpuCmd :=
  match ra e.mesh with
  | none => []
  | some asset =>
    [GpuCmd.setBindGroup 1 asset.bind_group [],
     GpuCmd.draw 0 4 0 asset.num_points]

/-- The commands the entity loop records, in entity order. -/
def entityCmds (ra : Handle → Option GpuPointCloud) :
    List PotreePointCloud → List GpuCmd
  | [] => []
  | e :: es => drawEntity ra e ++ entityCmds ra es

/-- Function `PointCloudNode::run` (render_graph.rs lines 50–136) as a pure function:
the result is the list of GPU commands recorded into the encoder and the
lines printed to stdout.

Path-by-path correspondence with the source:
  * input slot missing → `Err` (the `?` on line 56);
  * view query fails → `Ok(())`, nothing recorded (lines 58–63);
  * otherwise `begin_render_pass` with color `LoadOp::Load` and depth
    `LoadOp::Clear(0.0)` is recorded first (lines 65–86);
  * either pipeline missing → print "No pipeline", return `Ok` (lines
    93–96); dropping `render_pass` ends the begun pass;
  * bind group missing → `set_pipeline` was already recorded (line 100),
    print "No bind group", return `Ok` (lines 102–105);
  * otherwise record view bind group with the uniform offset, the vertex
    buffer, the entity loop, end the pass, then the compute pass:
    eye-dome pipeline, eye-dome bind group, and
    `dispatch_workgroups(viewport.z / 8, viewport.w / 8, 1)` (line 133). -/
def run (w : RenderWorld) : Except NodeRunError (List GpuCmd × List String) :=
  match w.slot_view with
  | none => Except.error NodeRunError.inputSlotError
  | some viewEntity =>
    match w.views viewEntity with
    | none => Except.ok ([], [])
    | some vb =>
      let beginCmd := GpuCmd.beginRenderPass LoadOp.load (LoadOp.clear 0)
      match w.pipeline, w.eye_dome_pipeline with
      | some pipeline, some eyeDomePipeline =>
        match w.pc_bind_group with
        | none =>
          Except.ok ([beginCmd, GpuCmd.setRenderPipeline pipeline,
            GpuCmd.endRenderPass], ["No bind group"])
        | some bg =>
          Except.ok (
            [beginCmd,
             GpuCmd.setRenderPipeline pipeline,
             GpuCmd.setBindGroup 0 bg [vb.view_uniform_offset],
             GpuCmd.setVertexBuffer 0]
            ++ entityCmds w.render_assets w.entities
            ++ [GpuCmd.endRenderPass,
                GpuCmd.beginComputePass,
                GpuCmd.setComputePipeline eyeDomePipeline,
                GpuCmd.setBindGroup 0 vb.eye_dome_bind_group [],
                GpuCmd.dispatch (vb.viewport.z / 8) (vb.viewport.w / 8) 1],
            [])
      | _, _ =>
        Except.ok ([beginCmd, GpuCmd.endRenderPass], ["No pipeline"])

/-- Is a command a draw call? -/
def isDraw : GpuCmd → Bool
  | GpuCmd.draw _ _ _ _ => true
  | _ => false

/-- Is a command a compute dispatch? -/
def isDispatch : GpuCmd → Bool
  | GpuCmd.dispatch _ _ _ => true
  | _ => false

/-- The commands `run` records (empty when it errors). -/
def runCmds (w : RenderWorld) : List GpuCmd :=
  match run w with
  | Except.ok (cmds, _) => cmds
  | Except.error _ => []

/-- The stdout lines `run` prints (empty when it errors). -/
def runLogs (w : RenderWorld) : List String :=
  match run w with
  | Except.ok (_, logs) => logs
  | Except.error _ => []

/-- The first `dispatch_workgroups` in a command list, if any. -/
def dispatchOf : List GpuCmd → Option (Nat × Nat × Nat)
  | [] => none
  | GpuCmd.dispatch x y z :: _ => some (x, y, z)
  | _ :: rest => dispatchOf rest

/-- The stdout lines printed over `n` consecutive frames on which the node
observes the same world state: `PointCloudNode` keeps no logging state
across frames (`run` takes `&self`; its only fields are query states), so
each frame's output is `runLogs w`. -/
def framesLogs (w : RenderWorld) : Nat → List String
  | 0 => []
  | n + 1 => runLogs w ++ framesLogs w n

/-! Concrete states used by witnesses and counterexamples. -/

/-- A view bundle whose viewport is `width × height` pixels. -/
def vbOf (width height : Nat) : ViewBundle :=
  { viewport := { x := 0, y := 0, z := width, w := height },
    view_uniform_offset := 0,
    eye_dome_depth_view := 4,
    eye_dome_bind_group := 7 }

/-- A fully ready render world with a `width × height` viewport: view
present, both pipelines compiled, view bind group built, and one spawned
point cloud whose render asset (bind group 5, 100 points) is ready. -/
def readyWorld (width height : Nat) : RenderWorld :=
  { slot_view := some 0,
    views := fun _ => some (vbOf width height),
    pipeline := some 1,
    eye_dome_pipeline := some 2,
    pc_bind_group := some 3,
    entities := [{ mesh := Handle.direct 0, point_size := 2 }],
    render_assets := fun h =>
      if h = Handle.direct 0 then some { bind_group := 5, num_points := 100 }
      else none }

/-- A ready world whose rasterization pipeline is not yet compiled. -/
def noPipelineWorld : RenderWorld :=
  { readyWorld 16 16 with pipeline := none }

/-- A ready world whose view bind group is not yet built. -/
def noBindGroupWorld : RenderWorld :=
  { readyWorld 16 16 with pc_bind_group := none }

/-! Helper lemmas about the entity loop. -/

/-- The loop body records no compute dispatch. -/
lemma drawEntity_no_dispatch (ra : Handle → Option GpuPointCloud)
    (ent : PotreePointCloud) : ∀ c ∈ drawEntity ra ent, isDispatch c = false := by
  intro c hc
  unfold drawEntity at hc
  cases h : ra ent.mesh with
  | none => rw [h] at hc; cases hc
  | some a =>
    rw [h] at hc
    simp only [List.mem_cons, List.mem_singleton, List.not_mem_nil,
      or_false] at hc
    rcases hc with rfl | rfl <;> rfl

/-- The loop body records no draw when the asset is absent, and exactly
the bind-plus-draw pair when it is present. -/
lemma drawEntity_eq (ra : Handle → Option GpuPointCloud)
    (ent : PotreePointCloud) :
    (ra ent.mesh = none → drawEntity ra ent = []) ∧
    (∀ a, ra ent.mesh = some a →
      drawEntity ra ent =
        [GpuCmd.setBindGroup 1 a.bind_group [],
         GpuCmd.draw 0 4 0 a.num_points]) := by
  constructor
  · intro h; unfold drawEntity; rw [h]
  · intro a h; unfold drawEntity; rw [h]

/-- The whole entity loop records no compute dispatch. -/
lemma entityCmds_no_dispatch (ra : Handle → Option GpuPointCloud) :
    ∀ es, ∀ c ∈ entityCmds ra es, isDispatch c = false := by
  intro es
  induction es with
  | nil => intro c hc; cases hc
  | cons ent es ih =>
    intro c hc
    simp only [entityCmds] at hc
    rcases List.mem_append.mp hc with h | h
    · exact drawEntity_no_dispatch ra ent c h
    · exact ih c h

/-- The first dispatch after the entity loop's commands is the first
dispatch of whatever follows them. -/
lemma dispatchOf_entityCmds_append (ra : Handle → Option GpuPointCloud)
    (es : List PotreePointCloud) (l : List GpuCmd) :
    dispatchOf (entityCmds ra es ++ l) = dispatchOf l := by
  induction es with
  | nil => rfl
  | cons ent es ih =>
    simp only [entityCmds, List.append_assoc]
    cases h : ra ent.mesh with
    | none => simp only [drawEntity, h, List.nil_append]; exact ih
    | some a =>
      simp only [drawEntity, h, List.cons_append, List.nil_append, dispatchOf]
      exact ih

/-! Claims about the loader. -/

/-- C4: `load` fails fast (the assertion) exactly when the config has both
`auto` and `direct` set; every other config synchronously yields a
non-null handle (never `Handle.default`). -/
theorem c4_load_fails_iff_auto_and_direct (env : LoaderEnv) (s : Stores)
    (c : LoadConfig) :
    (load env s c = Except.error () ↔ c.auto = true ∧ c.direct = true) ∧
    (∀ h s1, load env s c = Except.ok (h, s1) → h ≠ Handle.default) := by
  cases hauto : c.auto <;> cases hdirect : c.direct <;>
    simp [load, hauto, hdirect]

/-- Witness for C4 at the invalid config (`auto` and `direct` both set) and
the assertion firing there. -/
theorem c4_load_fails_witness :
    (load env0 stores0
        { direct := true, auto := true, early := false, delay := 0,
          name := "replay0.opd" } = Except.error () ↔
      (true = true ∧ true = true)) ∧
    (∀ h s1, load env0 stores0
        { direct := true, auto := true, early := false, delay := 0,
          name := "replay0.opd" } = Except.ok (h, s1) →
      h ≠ Handle.default) :=
  c4_load_fails_iff_auto_and_direct env0 stores0
    { direct := true, auto := true, early := false, delay := 0,
      name := "replay0.opd" }

/-- C5: the loader's three behaviors. `auto && !direct` registers the path
with the asset store; `!auto && !direct` reads the file, decodes it, and
inserts the resolved asset into the tracked store (`asset_server.add`);
`!auto && direct` reads, decodes, and inserts directly into
`Assets<PointCloudAsset>` (`assets.add`), bypassing the tracked pipeline. -/
theorem c5_load_branch_selection (env : LoaderEnv) (s : Stores)
    (c : LoadConfig) :
    (c.auto = true → c.direct = false →
      load env s c = Except.ok
        (Handle.byPath c.name s.server_path_loads.length,
         { s with server_path_loads := s.server_path_loads ++ [c.name] })) ∧
    (c.auto = false → c.direct = false →
      load env s c = Except.ok
        (Handle.tracked s.server_added.length,
         { s with server_added :=
            s.server_added ++ [env.load_opd (env.read_file c.name)] })) ∧
    (c.auto = false → c.direct = true →
      load env s c = Except.ok
        (Handle.direct s.assets_added.length,
         { s with assets_added :=
            s.assets_added ++ [env.load_opd (env.read_file c.name)] })) := by
  refine ⟨?_, ?_, ?_⟩ <;> intro ha hd <;> simp [load, ha, hd]

/-- Witness for C5 on the synchronous tracked branch
(`auto = false`, `direct = false`). -/
theorem c5_load_branch_witness :
    load env0 stores0
      { direct := false, auto := false, early := false, delay := 0,
        name := "replay0.opd" } = Except.ok
      (Handle.tracked 0,
       { server_path_loads := [], server_added := [⟨[]⟩], assets_added := [] }) :=
  (c5_load_branch_selection env0 stores0
    { direct := false, auto := false, early := false, delay := 0,
      name := "replay0.opd" }).2.1 rfl rfl

/-- C6: the branch `load` takes and the handle it produces depend only on
`auto`, `direct` and `name` — two configs differing only in `early` and/or
`delay` give identical results on identical stores. -/
theorem c6_load_time_independent (env : LoaderEnv) (s : Stores)
    (c1 c2 : LoadConfig) (ha : c1.auto = c2.auto)
    (hd : c1.direct = c2.direct) (hn : c1.name = c2.name) :
    load env s c1 = load env s c2 := by
  simp only [load, ha, hd, hn]

/-- Witness for C6: an early config and a just-in-time config (different
`early` and `delay`, same `auto`, `direct`, `name`) load identically. -/
theorem c6_load_time_independent_witness :
    load env0 stores0
      { direct := false, auto := true, early := true, delay := 0,
        name := "replay0.opd" } =
    load env0 stores0
      { direct := false, auto := true, early := false, delay := 150,
        name := "replay0.opd" } :=
  c6_load_time_independent env0 stores0
    { direct := false, auto := true, early := true, delay := 0,
      name := "replay0.opd" }
    { direct := false, auto := true, early := false, delay := 150,
      name := "replay0.opd" }
    rfl rfl rfl

/-! Claims about the render-graph node. -/

/-- C1 counterexample: on a 9×8 viewport with everything ready, the node
dispatches `9 / 8 = 1` workgroup column, not the `ceil(9/8) = 2` the claim
requires, so the grid does not cover the whole viewport in 8×8 tiles. -/
theorem c1_dispatch_not_ceil_counterexample :
    dispatchOf (runCmds (readyWorld 9 8)) = some (1, 1, 1) ∧
    (9 + 8 - 1) / 8 = 2 ∧
    dispatchOf (runCmds (readyWorld 9 8)) ≠ some (2, 1, 1) := by
  decide

/-- C1 amended: whenever the node reaches the compute dispatch, the
workgroup grid is `⌊w/8⌋ × ⌊h/8⌋ × 1` (truncating integer division of the
viewport's pixel dimensions), which coincides with `ceil(w/8) × ceil(h/8)`
exactly when both dimensions are multiples of 8; non-multiple viewports
get a truncated, not rounded-up, grid. -/
theorem c1_dispatch_floor_division (w : RenderWorld) (e : Nat)
    (vb : ViewBundle) (p ep bg : Nat)
    (h1 : w.slot_view = some e) (h2 : w.views e = some vb)
    (h3 : w.pipeline = some p) (h4 : w.eye_dome_pipeline = some ep)
    (h5 : w.pc_bind_group = some bg) :
    dispatchOf (runCmds w) =
      some (vb.viewport.z / 8, vb.viewport.w / 8, 1) := by
  simp only [runCmds, run, h1, h2, h3, h4, h5]
  simp only [List.cons_append, List.nil_append, dispatchOf]
  simp only [List.append_eq, List.nil_append]
  rw [dispatchOf_entityCmds_append]
  rfl

/-- Witness for the amended C1 at the 9×8 ready world. -/
theorem c1_dispatch_floor_division_witness :
    dispatchOf (runCmds (readyWorld 9 8)) = some (9 / 8, 8 / 8, 1) :=
  c1_dispatch_floor_division (readyWorld 9 8) 0 (vbOf 9 8) 1 2 3
    rfl rfl rfl rfl rfl

/-- C9: on a 1920×1088 viewport with everything ready, the dispatch grid is
240 × 136 × 1, and 240 and 136 are exactly `ceil(1920/8)` and
`ceil(1088/8)` (both dimensions are multiples of 8, so floor = ceil). -/
theorem c9_dispatch_1920_1088 :
    dispatchOf (runCmds (readyWorld 1920 1088)) = some (240, 136, 1) ∧
    (1920 + 8 - 1) / 8 = 240 ∧ (1088 + 8 - 1) / 8 = 136 := by
  decide

/-- C2: with the input slot wired, if the view query fails, or either
pipeline is not yet compiled, or the view bind group is not yet built,
`run` returns `Ok` and the recorded commands contain no draw call and no
compute dispatch. -/
theorem c2_early_return_no_work (w : RenderWorld) (e : Nat)
    (hslot : w.slot_view = some e)
    (h : w.views e = none ∨ w.pipeline = none ∨
      w.eye_dome_pipeline = none ∨ w.pc_bind_group = none) :
    ∃ cmds logs, run w = Except.ok (cmds, logs) ∧
      ∀ c ∈ cmds, isDraw c = false ∧ isDispatch c = false := by
  cases hv : w.views e with
  | none =>
    refine ⟨[], [], ?_, ?_⟩
    · simp [run, hslot, hv]
    · intro c hc; cases hc
  | some vb =>
    cases hp : w.pipeline with
    | none =>
      refine ⟨[GpuCmd.beginRenderPass LoadOp.load (LoadOp.clear 0),
        GpuCmd.endRenderPass], ["No pipeline"], ?_, ?_⟩
      · simp [run, hslot, hv, hp]
      · decide
    | some p =>
      cases hep : w.eye_dome_pipeline with
      | none =>
        refine ⟨[GpuCmd.beginRenderPass LoadOp.load (LoadOp.clear 0),
          GpuCmd.endRenderPass], ["No pipeline"], ?_, ?_⟩
        · simp [run, hslot, hv, hp, hep]
        · decide
      | some ep =>
        cases hbg : w.pc_bind_group with
        | none =>
          refine ⟨[GpuCmd.beginRenderPass LoadOp.load (LoadOp.clear 0),
            GpuCmd.setRenderPipeline p, GpuCmd.endRenderPass],
            ["No bind group"], ?_, ?_⟩
          · simp [run, hslot, hv, hp, hep, hbg]
          · intro c hc
            simp only [List.mem_cons, List.mem_singleton, List.not_mem_nil,
              or_false] at hc
            rcases hc with rfl | rfl | rfl <;> exact ⟨rfl, rfl⟩
        | some bg =>
          exfalso
          rcases h with h | h | h | h
          · rw [hv] at h; cases h
          · rw [hp] at h; cases h
          · rw [hep] at h; cases h
          · rw [hbg] at h; cases h

/-- Witness for C2 at a world whose view bind group is missing. -/
theorem c2_early_return_no_work_witness :
    ∃ cmds logs, run noBindGroupWorld = Except.ok (cmds, logs) ∧
      ∀ c ∈ cmds, isDraw c = false ∧ isDispatch c = false :=
  c2_early_return_no_work noBindGroupWorld 0 rfl
    (Or.inr (Or.inr (Or.inr rfl)))

/-- When the input slot is wired, `run` always returns `Ok`. -/
lemma run_isOk (w : RenderWorld) (e : Nat) (h : w.slot_view = some e) :
    ∃ cmds logs, run w = Except.ok (cmds, logs) := by
  simp only [run, h]
  cases w.views e with
  | none => exact ⟨_, _, rfl⟩
  | some vb =>
    cases w.pipeline with
    | none =>
      cases w.eye_dome_pipeline with
      | none => exact ⟨_, _, rfl⟩
      | some ep => exact ⟨_, _, rfl⟩
    | some p =>
      cases w.eye_dome_pipeline with
      | none => exact ⟨_, _, rfl⟩
      | some ep =>
        cases w.pc_bind_group with
        | none => exact ⟨_, _, rfl⟩
        | some bg => exact ⟨_, _, rfl⟩

/-- C10: whenever the view query succeeds, the very first command recorded
is the rasterization pass begin with color `LoadOp::Load` and depth
`LoadOp::Clear(0.0)` — before any pipeline or bind-group readiness check,
so the depth clear happens even on frames that return early — and `run`
returns `Ok`. -/
theorem c10_depth_clear_always (w : RenderWorld) (e : Nat)
    (vb : ViewBundle) (h1 : w.slot_view = some e)
    (h2 : w.views e = some vb) :
    (∃ cmds logs, run w = Except.ok (cmds, logs)) ∧
    (runCmds w).head? =
      some (GpuCmd.beginRenderPass LoadOp.load (LoadOp.clear 0)) := by
  refine ⟨run_isOk w e h1, ?_⟩
  cases hp : w.pipeline with
  | none => simp [runCmds, run, h1, h2, hp]
  | some p =>
    cases hep : w.eye_dome_pipeline with
    | none => simp [runCmds, run, h1, h2, hp, hep]
    | some ep =>
      cases hbg : w.pc_bind_group with
      | none => simp [runCmds, run, h1, h2, hp, hep, hbg]
      | some bg => simp [runCmds, run, h1, h2, hp, hep, hbg]

/-- Witness for C10 at the world with a missing rasterization pipeline:
the depth clear is recorded even though the frame then returns early. -/
theorem c10_depth_clear_always_witness :
    (∃ cmds logs, run noPipelineWorld = Except.ok (cmds, logs)) ∧
    (runCmds noPipelineWorld).head? =
      some (GpuCmd.beginRenderPass LoadOp.load (LoadOp.clear 0)) :=
  c10_depth_clear_always noPipelineWorld 0 (vbOf 16 16) rfl rfl

/-- C3: in the rasterization pass the draw commands are exactly the entity
loop's output, in entity order; an entity whose render asset is present
contributes exactly one per-asset bind plus one instanced draw of 4
vertices and `num_points` instances, and an entity whose asset is absent
contributes nothing (skipped silently, never dereferenced). -/
theorem c3_per_entity_draws (w : RenderWorld) (e : Nat) (vb : ViewBundle)
    (p ep bg : Nat)
    (h1 : w.slot_view = some e) (h2 : w.views e = some vb)
    (h3 : w.pipeline = some p) (h4 : w.eye_dome_pipeline = some ep)
    (h5 : w.pc_bind_group = some bg) :
    (∃ front tail, runCmds w =
        front ++ entityCmds w.render_assets w.entities ++ tail ∧
      (∀ c ∈ front, isDraw c = false) ∧ (∀ c ∈ tail, isDraw c = false)) ∧
    (∀ ent ∈ w.entities,
      (w.render_assets ent.mesh = none →
        drawEntity w.render_assets ent = []) ∧
      (∀ a, w.render_assets ent.mesh = some a →
        drawEntity w.render_assets ent =
          [GpuCmd.setBindGroup 1 a.bind_group [],
           GpuCmd.draw 0 4 0 a.num_points])) := by
  constructor
  · refine ⟨[GpuCmd.beginRenderPass LoadOp.load (LoadOp.clear 0),
      GpuCmd.setRenderPipeline p,
      GpuCmd.setBindGroup 0 bg [vb.view_uniform_offset],
      GpuCmd.setVertexBuffer 0],
      [GpuCmd.endRenderPass, GpuCmd.beginComputePass,
       GpuCmd.setComputePipeline ep,
       GpuCmd.setBindGroup 0 vb.eye_dome_bind_group [],
       GpuCmd.dispatch (vb.viewport.z / 8) (vb.viewport.w / 8) 1],
      ?_, ?_, ?_⟩
    · simp [runCmds, run, h1, h2, h3, h4, h5]
    · intro c hc
      simp only [List.mem_cons, List.mem_singleton, List.not_mem_nil,
        or_false] at hc
      rcases hc with rfl | rfl | rfl | rfl <;> rfl
    · intro c hc
      simp only [List.mem_cons, List.mem_singleton, List.not_mem_nil,
        or_false] at hc
      rcases hc with rfl | rfl | rfl | rfl | rfl <;> rfl
  · intro ent _
    exact drawEntity_eq w.render_assets ent

/-- Witness for C3 at the ready world with one ready entity. -/
theorem c3_per_entity_draws_witness :
    (∃ front tail, runCmds (readyWorld 16 16) =
        front ++ entityCmds (readyWorld 16 16).render_assets
          (readyWorld 16 16).entities ++ tail ∧
      (∀ c ∈ front, isDraw c = false) ∧ (∀ c ∈ tail, isDraw c = false)) ∧
    (∀ ent ∈ (readyWorld 16 16).entities,
      ((readyWorld 16 16).render_assets ent.mesh = none →
        drawEntity (readyWorld 16 16).render_assets ent = []) ∧
      (∀ a, (readyWorld 16 16).render_assets ent.mesh = some a →
        drawEntity (readyWorld 16 16).render_assets ent =
          [GpuCmd.setBindGroup 1 a.bind_group [],
           GpuCmd.draw 0 4 0 a.num_points])) :=
  c3_per_entity_draws (readyWorld 16 16) 0 (vbOf 16 16) 1 2 3
    rfl rfl rfl rfl rfl

/-- C7: in every invocation that reaches the drawing stage, the recorded
command stream ends the rasterization pass and then begins the compute
pass, with no compute dispatch before that point and no draw after it;
the dispatch itself comes after every draw of the frame. -/
theorem c7_raster_before_compute (w : RenderWorld) (e : Nat)
    (vb : ViewBundle) (p ep bg : Nat)
    (h1 : w.slot_view = some e) (h2 : w.views e = some vb)
    (h3 : w.pipeline = some p) (h4 : w.eye_dome_pipeline = some ep)
    (h5 : w.pc_bind_group = some bg) :
    ∃ front tail, runCmds w =
        front ++ GpuCmd.endRenderPass :: GpuCmd.beginComputePass :: tail ∧
      (∀ c ∈ front, isDispatch c = false) ∧
      (∀ c ∈ tail, isDraw c = false) ∧
      GpuCmd.dispatch (vb.viewport.z / 8) (vb.viewport.w / 8) 1 ∈ tail := by
  refine ⟨[GpuCmd.beginRenderPass LoadOp.load (LoadOp.clear 0),
      GpuCmd.setRenderPipeline p,
      GpuCmd.setBindGroup 0 bg [vb.view_uniform_offset],
      GpuCmd.setVertexBuffer 0] ++ entityCmds w.render_assets w.entities,
    [GpuCmd.setComputePipeline ep,
     GpuCmd.setBindGroup 0 vb.eye_dome_bind_group [],
     GpuCmd.dispatch (vb.viewport.z / 8) (vb.viewport.w / 8) 1],
    ?_, ?_, ?_, ?_⟩
  · simp [runCmds, run, h1, h2, h3, h4, h5]
  · intro c hc
    rcases List.mem_append.mp hc with h | h
    · simp only [List.mem_cons, List.mem_singleton, List.not_mem_nil,
        or_false] at h
      rcases h with rfl | rfl | rfl | rfl <;> rfl
    · exact entityCmds_no_dispatch w.render_assets w.entities c h
  · intro c hc
    simp only [List.mem_cons, List.mem_singleton, List.not_mem_nil,
      or_false] at hc
    rcases hc with rfl | rfl | rfl <;> rfl
  · simp

/-- Witness for C7 at the ready world. -/
theorem c7_raster_before_compute_witness :
    ∃ front tail, runCmds (readyWorld 16 16) =
        front ++ GpuCmd.endRenderPass :: GpuCmd.beginComputePass :: tail ∧
      (∀ c ∈ front, isDispatch c = false) ∧
      (∀ c ∈ tail, isDraw c = false) ∧
      GpuCmd.dispatch (16 / 8) (16 / 8) 1 ∈ tail :=
  c7_raster_before_compute (readyWorld 16 16) 0 (vbOf 16 16) 1 2 3
    rfl rfl rfl rfl rfl

/-- C8 counterexample: the node keeps no logging state, so two consecutive
frames under the same missing-pipeline condition each print the
"No pipeline" line — two emissions over two frames, not one per cause. -/
theorem c8_log_every_frame_counterexample :
    framesLogs noPipelineWorld 2 = ["No pipeline", "No pipeline"] ∧
    (framesLogs noPipelineWorld 2).length = 2 := by
  decide

/-- C8 amended: under a persistent missing-pipeline condition the
diagnostic is emitted once per invocation — `n` frames print the
"No pipeline" line `n` times, once each frame, not once per cause. -/
theorem c8_log_once_per_frame (w : RenderWorld) (e : Nat) (vb : ViewBundle)
    (h1 : w.slot_view = some e) (h2 : w.views e = some vb)
    (h : w.pipeline = none ∨ w.eye_dome_pipeline = none) (n : Nat) :
    framesLogs w n = List.replicate n "No pipeline" := by
  have hrun : runLogs w = ["No pipeline"] := by
    cases hp : w.pipeline with
    | none =>
      cases hep : w.eye_dome_pipeline with
      | none => simp [runLogs, run, h1, h2, hp, hep]
      | some ep => simp [runLogs, run, h1, h2, hp, hep]
    | some p =>
      cases hep : w.eye_dome_pipeline with
      | none => simp [runLogs, run, h1, h2, hp, hep]
      | some ep =>
        exfalso
        rcases h with h | h
        · rw [hp] at h; cases h
        · rw [hep] at h; cases h
  induction n with
  | zero => rfl
  | succ n ih =>
    simp only [framesLogs, hrun, ih, List.replicate_succ]
    rfl

/-- Witness for the amended C8: three frames with the pipeline missing
print the line three times. -/
theorem c8_log_once_per_frame_witness :
    framesLogs noPipelineWorld 3 = List.replicate 3 "No pipeline" :=
  c8_log_once_per_frame noPipelineWorld 0 (vbOf 16 16) rfl rfl
    (Or.inl rfl) 3

end BevyPotree
